import Mathlib

/-!
Shallow embedding of the Monero node tracker (`src/main.py`,
`src/telegram_bot.py`, `src/utils/tor_utils.py`).

Modelling conventions:
* Network I/O is an oracle: every HTTP attempt yields `Except Unit HttpResponse`
  (`Except.error` models a raised exception, timeouts included).
* JSON bodies are modelled just deep enough for the fields the code reads:
  a body is `Option RpcBody` (`none` = `response.json()` raised), the
  `result` field is `Option RpcResult`, and `RpcResult` carries the four
  fields `check_node` inspects.  `block_header` without a `height` key and
  an absent `block_header` behave identically in the code, so both are
  `blockHeaderHeight = none`.
* Python floats are modelled exactly over `ℚ` (the code uses `0.5`, which is
  exact, and divisions whose rounding is far below the resolution of the claims).
* Python integers are `Nat` where the code guarantees non-negativity
  (heights, counts, status codes).
-/

namespace MoneroTracker

/-- A node descriptor as loaded from `config/nodes.json`: the fields
`check_node` reads are `url` and `type`. -/
structure NodeDescriptor where
  url : String
  type : String
  deriving DecidableEq

/-- A probe result as built by `check_node` (src/main.py lines 126-172).
The three return dictionaries share `url`, `type`, `status` and `height`;
`version`/`difficulty` appear only in the RPC-success dictionary, `note`
only in the GET-fallback one, `error` only in the offline one, which the
`Option` fields record. -/
structure ProbeResult where
  url : String
  type : String
  status : String
  height : Nat
  version : Option String := none
  difficulty : Option Nat := none
  note : Option String := none
  error : Option String := none
  deriving DecidableEq

/-- The part of the parsed JSON `result` object that `check_node` reads. -/
structure RpcResult where
  height : Option Nat := none
  blockHeaderHeight : Option Nat := none
  version : Option String := none
  difficulty : Option Nat := none
  deriving DecidableEq

/-- A parsed JSON response body: `result` models the membership check for the result key. -/
structure RpcBody where
  result : Option RpcResult := none
  deriving DecidableEq

/-- An HTTP response: the status code, and the outcome of `response.json()`
(`none` when parsing raises). -/
structure HttpResponse where
  status_code : Nat
  body : Option RpcBody := none
  deriving DecidableEq

/-- Which HTTP client `check_node` selected (src/main.py lines 88-91):
either the Tor-proxied session from `get_tor_session` or the plain
`requests` module. -/
inductive Session where
  | tor
  | direct
  deriving DecidableEq

/-- One entry of the `height_methods` list: the request URL and the JSON-RPC
`method` name (the rest of the POST body is the constant
`{"jsonrpc":"2.0","id":"0"}` envelope). -/
structure RpcMethod where
  url : String
  method : String
  deriving DecidableEq

/-- The behaviour a given HTTP client observes from the network: an outcome
for every POST (keyed by URL and JSON-RPC method) and every GET (keyed by
URL).  `Except.error` models a raised exception. -/
structure NetBehaviour where
  post : String → String → Except Unit HttpResponse
  get : String → Except Unit HttpResponse

/-- A world assigns each client its observed network behaviour; the Prober
is run against a world. -/
def World : Type := Session → NetBehaviour

/-- Embeds the trailing-slash strip of src/main.py line 94 (Python rstrip
removes every trailing slash). -/
def rstripSlash (s : String) : String :=
  String.mk ((s.toList.reverse.dropWhile (fun c => c = '/')).reverse)

/-- The ordered `height_methods` list of src/main.py lines 97-104. -/
def height_methods (base_url : String) : List RpcMethod :=
  [ { url := base_url ++ "/get_info", method := "get_info" },
    { url := base_url ++ "/json_rpc", method := "get_info" },
    { url := base_url ++ "/json_rpc", method := "get_last_block_header" } ]

/-- The ordered `basic_methods` URL list of src/main.py lines 143-146. -/
def basic_methods (base_url : String) : List String :=
  [ base_url, base_url ++ "/get_info" ]

/-- The height/version/difficulty triple `check_node` extracts on an RPC
success. -/
structure HeightInfo where
  height : Nat
  version : String
  difficulty : Nat
  deriving DecidableEq

/-- One iteration of the `height_methods` loop body (src/main.py
lines 108-140): `some` is the early `return`, `none` is `continue`
(exception, non-200 status, unparseable body, missing `result`, or no
height field). -/
def tryPost (out : Except Unit HttpResponse) : Option HeightInfo :=
  match out with
  | Except.error _ => none
  | Except.ok resp =>
    if resp.status_code = 200 then
      match resp.body with
      | none => none
      | some data =>
        match data.result with
        | none => none
        | some r =>
          let height : Option Nat :=
            match r.height with
            | some h => some h
            | none => r.blockHeaderHeight
          match height with
          | some h => some { height := h, version := r.version.getD "", difficulty := r.difficulty.getD 0 }
          | none => none
    else none

/-- The outcome of one height-seeking strategy against a client behaviour. -/
def postOutcome (net : NetBehaviour) (m : RpcMethod) : Option HeightInfo :=
  tryPost (net.post m.url m.method)

/-- The `height_methods` loop: first strategy whose `tryPost` succeeds
wins. -/
def runHeight (net : NetBehaviour) : List RpcMethod → Option HeightInfo
  | [] => none
  | m :: rest =>
    match postOutcome net m with
    | some i => some i
    | none => runHeight net rest

/-- The `basic_methods` loop (src/main.py lines 149-163): first GET that
returns (no exception) with `status_code < 500` wins, yielding the observed
status code. -/
def runBasic (net : NetBehaviour) : List String → Option Nat
  | [] => none
  | u :: rest =>
    match net.get u with
    | Except.error _ => runBasic net rest
    | Except.ok resp =>
      if resp.status_code < 500 then some resp.status_code
      else runBasic net rest

/-- Session selection of src/main.py lines 88-91: the Tor session exactly
when the `type` field of the descriptor is `"darknet"` and `use_tor` holds. -/
def session_for (node : NodeDescriptor) (use_tor : Bool) : Session :=
  if node.type = "darknet" ∧ use_tor = true then Session.tor else Session.direct

/-- The strategy chain of `check_node` run against one client behaviour
(src/main.py lines 93-172): three RPC POSTs, then two plain GETs, then the
offline result. -/
def probe_with (net : NetBehaviour) (node : NodeDescriptor) : ProbeResult :=
  match runHeight net (height_methods (rstripSlash node.url)) with
  | some i =>
    { url := node.url, type := node.type, status := "online",
      height := i.height, version := some i.version, difficulty := some i.difficulty }
  | none =>
    match runBasic net (basic_methods (rstripSlash node.url)) with
    | some code =>
      { url := node.url, type := node.type, status := "online",
        note := some ("Responded with status " ++ toString code), height := 0 }
    | none =>
      { url := node.url, type := node.type, status := "offline",
        error := some "Failed all connection methods", height := 0 }

/-- Embeds `check_node` (src/main.py lines 80-172): pick the session, then run the
strategy chain against what that session observes.  Exceptions are values
of the oracle, so this is a total function — the "never raises" boundary. -/
def check_node (node : NodeDescriptor) (use_tor : Bool) (world : World) : ProbeResult :=
  probe_with (world (session_for node use_tor)) node

/-- The probing loop of `run_scan` (src/main.py lines 227-245): sequential,
one result appended per node, in input order.  Each node may face its own
network behaviour. -/
def scan_nodes (nodes : List NodeDescriptor) (use_tor : Bool)
    (world : NodeDescriptor → World) : List ProbeResult :=
  nodes.map (fun n => check_node n use_tor (world n))

/-- The `error` counter of src/main.py line 271: results whose status is
neither `"online"` nor `"offline"`. -/
def error_count (results : List ProbeResult) : Nat :=
  results.countP (fun r => !(r.status == "online") && !(r.status == "offline"))

/-- The `offline` counter of src/main.py line 270. -/
def offline_count (results : List ProbeResult) : Nat :=
  results.countP (fun r => r.status == "offline")

/-- A scan record as assembled by `run_scan` (src/main.py lines 248-251):
the capture timestamp and the ordered result list. -/
structure ScanRecord where
  timestamp : String
  nodes : List ProbeResult
  deriving DecidableEq

/-- The history append of `run_scan` (src/main.py lines 255-260):
`scans.append(scan_result)` followed by trimming to the last 10 entries
(`scans[-10:]`) whenever the length exceeds 10. -/
def append_scan (scans : List ScanRecord) (r : ScanRecord) : List ScanRecord :=
  let s := scans ++ [r]
  if s.length > 10 then s.drop (s.length - 10) else s

/-! ### Proxy session provider (src/main.py lines 46-49, src/utils/tor_utils.py lines 14-30) -/

/-- The characters CPython `urlsplit` accepts in a URL scheme. -/
def isSchemeChar (c : Char) : Bool :=
  c.isAlphanum || c = '+' || c = '-' || c = '.'

/-- Embeds `urlparse(url).netloc`: strip a valid `scheme:` prefix, then, when the
remainder starts with `//`, the host part runs up to the next `/`, `?` or
`#`; otherwise the netloc is empty. -/
def netlocOf (url : String) : String :=
  let cs := url.toList
  let rest :=
    match cs.findIdx? (fun c => c = ':') with
    | some i => if 0 < i ∧ (cs.take i).all isSchemeChar then cs.drop (i + 1) else cs
    | none => cs
  match rest with
  | '/' :: '/' :: r =>
    String.mk (r.takeWhile (fun c => c ≠ '/' ∧ c ≠ '?' ∧ c ≠ '#'))
  | _ => ""

/-- Embeds the Python `str.endswith` test, over character lists. -/
def strEndsWith (s suffix : String) : Bool :=
  suffix.toList.reverse.isPrefixOf s.toList.reverse

/-- Embeds `is_darknet_url` (src/main.py lines 46-49): the parsed netloc ends with
`.onion` or `.i2p`. -/
def is_darknet_url (url : String) : Bool :=
  strEndsWith (netlocOf url) ".onion" || strEndsWith (netlocOf url) ".i2p"

/-- The proxy configuration of a `requests` session: the `http` and `https`
entries of `session.proxies` (empty for a direct client). -/
structure ProxyConfig where
  http : String
  https : String
  deriving DecidableEq

/-- Embeds `get_tor_session` (src/utils/tor_utils.py lines 14-30): the session
proxies are hard-wired to `socks5h://127.0.0.1:9050` for both schemes. -/
def get_tor_session : ProxyConfig :=
  { http := "socks5h://127.0.0.1:9050", https := "socks5h://127.0.0.1:9050" }

/-- The Tor session produced when the settings carry a given
`tor.socks_port`: the code threads the configured port only into
`ensure_tor_running` (src/main.py line 191), never into `get_tor_session`,
so the produced session ignores it. -/
def session_for_config (socks_port : Nat) : ProxyConfig :=
  get_tor_session

/-- Modelled from the spec: "produce an HTTP client whose requests are
routed through a local SOCKS proxy endpoint (host `127.0.0.1`, configurable
port, default well-known Tor port)" — a session whose proxy endpoint uses
the configured SOCKS port. -/
def get_tor_session_spec (socks_port : Nat) : ProxyConfig :=
  { http := "socks5h://127.0.0.1:" ++ toString socks_port,
    https := "socks5h://127.0.0.1:" ++ toString socks_port }

/-! ### Result formatter (src/telegram_bot.py lines 40-101)

`format_scan_results` is embedded as a pure function of the `ScanRecord`
and the optional `scan_time` argument.  The timestamp re-rendering
(`datetime.fromisoformat` + `strftime`, falling back to the raw string on
a parse error) is modelled as the raw string: it is a function of the
timestamp of the record alone, which is all the properties below use. -/

/-- Embeds `sorted(heights)` — ascending insertion sort (Python `sorted` is an
ascending stable sort; on `Nat` keys the result is the same). -/
def insertAsc (x : Nat) : List Nat → List Nat
  | [] => [x]
  | y :: ys => if x ≤ y then x :: y :: ys else y :: insertAsc x ys

/-- Ascending sort of a height list. -/
def sortAsc (l : List Nat) : List Nat :=
  l.foldr insertAsc []

/-- Embeds `total_nodes = len(nodes)` — src/telegram_bot.py line 51. -/
def total_nodes (r : ScanRecord) : Nat :=
  r.nodes.length

/-- Embeds `online_nodes` — src/telegram_bot.py line 52. -/
def online_nodes (r : ScanRecord) : Nat :=
  r.nodes.countP (fun n => n.status == "online")

/-- Embeds `clearnet_online` — src/telegram_bot.py line 53. -/
def clearnet_online (r : ScanRecord) : Nat :=
  r.nodes.countP (fun n => n.type == "clearnet" && n.status == "online")

/-- Embeds `darknet_online` — src/telegram_bot.py line 54. -/
def darknet_online (r : ScanRecord) : Nat :=
  r.nodes.countP (fun n => n.type == "darknet" && n.status == "online")

/-- Embeds `online_with_height` — src/telegram_bot.py line 57: online nodes whose
height is positive. -/
def online_with_height (r : ScanRecord) : List ProbeResult :=
  r.nodes.filter (fun n => n.status == "online" && decide (0 < n.height))

/-- Embeds `heights` — src/telegram_bot.py line 58. -/
def heights (r : ScanRecord) : List Nat :=
  (online_with_height r).map (fun n => n.height)

/-- Embeds `max_height` — src/telegram_bot.py line 59: `max(heights)` when
non-empty, else 0. -/
def max_height (r : ScanRecord) : Nat :=
  (heights r).foldr Nat.max 0

/-- Embeds `median_height` — src/telegram_bot.py lines 62-70: with `mid = len//2`,
the average of the two entries around the middle for even lengths, the
middle entry for odd lengths, 0 for the empty list. -/
def median_height (r : ScanRecord) : ℚ :=
  let s := sortAsc (heights r)
  if s.length = 0 then 0
  else
    let mid := s.length / 2
    if s.length % 2 = 0 then ((s.getD (mid - 1) 0 : ℚ) + (s.getD mid 0 : ℚ)) / 2
    else (s.getD mid 0 : ℚ)

/-- Embeds `synced_nodes` — src/telegram_bot.py line 73: heights within 10 of the
maximum (heights never exceed the maximum, so `Nat` subtraction agrees with
the Python value). -/
def synced_nodes (r : ScanRecord) : Nat :=
  (heights r).countP (fun h => decide (max_height r - h ≤ 10))

/-- Embeds `synced_percent` — src/telegram_bot.py line 74. -/
def synced_percent (r : ScanRecord) : ℚ :=
  if online_with_height r = [] then 0
  else (synced_nodes r : ℚ) / ((online_with_height r).length : ℚ) * 100

/-- Embeds `health_score` — src/telegram_bot.py lines 77-80. -/
def health_score (r : ScanRecord) : ℚ :=
  if 0 < total_nodes r ∧ online_with_height r ≠ [] then
    ((online_nodes r : ℚ) / (total_nodes r : ℚ) * (1 / 2)
      + (synced_nodes r : ℚ) / ((online_with_height r).length : ℚ) * (1 / 2)) * 100
  else 0

/-- Embeds `online_nodes/total_nodes` — the online fraction used at
src/telegram_bot.py lines 78 and 92. -/
def onlineFraction (r : ScanRecord) : ℚ :=
  (online_nodes r : ℚ) / (total_nodes r : ℚ)

/-- Models the Python one-decimal fixed rendering of the non-negative rationals the formatter
prints: the value rounded to one decimal digit, integer part and tenths
separated by a dot. -/
def fmt1 (q : ℚ) : String :=
  let n := Int.toNat (Int.floor (q * 10 + 1 / 2))
  toString (n / 10) ++ "." ++ toString (n % 10)

/-- The `scan_time` line — src/telegram_bot.py lines 87-88: emitted only
when the argument is present and truthy (Python `if scan_time:` skips both
`None` and `0.0`). -/
def scanTimeLine (scan_time : Option ℚ) : String :=
  match scan_time with
  | none => ""
  | some t => if t = 0 then "" else "⏱️ *Scan Duration*: " ++ fmt1 t ++ " seconds\n"

/-- Embeds `format_scan_results` — src/telegram_bot.py lines 40-101: the full
message string.  It is built from the timestamp and the aggregate
statistics only; no per-node line is ever emitted. -/
def format_scan_results (r : ScanRecord) (scan_time : Option ℚ) : String :=
  "*Monero Node Scan Results*\n"
    ++ "📅 *Time*: " ++ r.timestamp ++ "\n"
    ++ scanTimeLine scan_time
    ++ "📊 *Summary*:\n"
    ++ "- Total nodes: " ++ toString (total_nodes r) ++ "\n"
    ++ "- Online: " ++ toString (online_nodes r) ++ "/" ++ toString (total_nodes r)
    ++ " (" ++ fmt1 (onlineFraction r * 100) ++ "%)\n"
    ++ "- Clearnet: " ++ toString (clearnet_online r)
    ++ " | Darknet: " ++ toString (darknet_online r) ++ "\n\n"
    ++ "*Network Status*:\n"
    ++ "- Block Height: " ++ toString (max_height r) ++ "\n"
    ++ "- Synced Nodes: " ++ toString (synced_nodes r) ++ "/"
    ++ toString ((online_with_height r).length)
    ++ " (" ++ fmt1 (synced_percent r) ++ "%)\n"
    ++ "- Health Score: " ++ fmt1 (health_score r) ++ "/100\n"

/-! ### Spec-side definitions (for refinement claims) -/

/-- Modelled from the spec: "`median_height` = standard median (average of
two middle values for even counts)" over the heights of online nodes with
positive height, 0 for the empty set. -/
def medianSpec (r : ScanRecord) : ℚ :=
  let s := sortAsc (heights r)
  if s.length = 0 then 0
  else if s.length % 2 = 0 then
    ((s.getD (s.length / 2 - 1) 0 : ℚ) + (s.getD (s.length / 2) 0 : ℚ)) / 2
  else (s.getD ((s.length - 1) / 2) 0 : ℚ)

/-- Modelled from the spec: "`health_score = 100 × (0.5 × online_ratio +
0.5 × synced_count/online_with_height_count)`, defined as 0 when there are
no online-with-height nodes". -/
def healthSpec (r : ScanRecord) : ℚ :=
  if online_with_height r = [] then 0
  else
    100 * ((1 / 2) * onlineFraction r
      + (1 / 2) * ((synced_nodes r : ℚ) / ((online_with_height r).length : ℚ)))

/-- Modelled from the spec: the address elision rule the claimed node
listing would apply — "any address longer than 30 characters elided to its
first 20 characters, an ellipsis, and its last 7 characters". -/
def elide_address (a : String) : String :=
  if 30 < a.length then
    String.mk (a.toList.take 20) ++ "..." ++ String.mk (a.toList.drop (a.toList.length - 7))
  else a

/-- Substring test on character lists (used to ask whether an address
occurs anywhere in a formatted message). -/
def listContains (pat : List Char) : List Char → Bool
  | [] => pat.isEmpty
  | c :: rest => pat.isPrefixOf (c :: rest) || listContains pat rest

/-- Replace the address of a probe result, leaving every other field intact. -/
def setUrl (f : String → String) (n : ProbeResult) : ProbeResult :=
  { n with url := f n.url }

/-- Replace every address of a scan record. -/
def mapUrls (f : String → String) (r : ScanRecord) : ScanRecord :=
  { r with nodes := r.nodes.map (setUrl f) }

/-! ### Concrete fixtures used by witnesses and counterexamples -/

/-- A clearnet node descriptor. -/
def exNode : NodeDescriptor := { url := "http://node.example", type := "clearnet" }

/-- A darknet node descriptor. -/
def onionNode : NodeDescriptor := { url := "http://abcdef.onion", type := "darknet" }

/-- A behaviour on which every request raises. -/
def failNet : NetBehaviour :=
  { post := fun _ _ => Except.error (), get := fun _ => Except.error () }

/-- A world on which every request of every client raises. -/
def failWorld : World := fun _ => failNet

/-- The HTTP 200 response with body `{"result":{"height":500,"version":"0.18"}}`. -/
def resp500 : HttpResponse :=
  { status_code := 200,
    body := some { result := some { height := some 500, version := some "0.18" } } }

/-- A behaviour on which every POST answers `resp500` and every GET raises. -/
def infoNet : NetBehaviour :=
  { post := fun _ _ => Except.ok resp500, get := fun _ => Except.error () }

/-- A world of `infoNet` behaviours. -/
def infoWorld : World := fun _ => infoNet

/-- A behaviour on which every POST raises and every GET answers a bare
HTTP 200. -/
def getOnlyNet : NetBehaviour :=
  { post := fun _ _ => Except.error (), get := fun _ => Except.ok { status_code := 200 } }

/-- A world of `getOnlyNet` behaviours. -/
def getOnlyWorld : World := fun _ => getOnlyNet

/-- A behaviour on which POSTs raise, the bare-address GET answers 503 and
any other GET answers 200. -/
def get503Net : NetBehaviour :=
  { post := fun _ _ => Except.error (),
    get := fun u => if u = "http://node.example" then Except.ok { status_code := 503 }
                    else Except.ok { status_code := 200 } }

/-- A world of `get503Net` behaviours. -/
def get503World : World := fun _ => get503Net

/-- A world routing `exNode` to failure and everything else to bare-GET
success. -/
def mixedWorld : NodeDescriptor → World :=
  fun n => if n = exNode then failWorld else getOnlyWorld

/-- A history of ten scan records. -/
def hist10 : List ScanRecord :=
  [ { timestamp := "1", nodes := [] }, { timestamp := "2", nodes := [] },
    { timestamp := "3", nodes := [] }, { timestamp := "4", nodes := [] },
    { timestamp := "5", nodes := [] }, { timestamp := "6", nodes := [] },
    { timestamp := "7", nodes := [] }, { timestamp := "8", nodes := [] },
    { timestamp := "9", nodes := [] }, { timestamp := "10", nodes := [] } ]

/-- An eleventh scan record. -/
def rec11 : ScanRecord := { timestamp := "11", nodes := [] }

/-- The worked formatter example of the spec: online nodes at heights 100, 100,
90 and 80 plus one offline node. -/
def exRecord : ScanRecord :=
  { timestamp := "2025-01-01T00:00:00",
    nodes :=
      [ { url := "a", type := "clearnet", status := "online", height := 100 },
        { url := "b", type := "clearnet", status := "online", height := 100 },
        { url := "c", type := "clearnet", status := "online", height := 90 },
        { url := "d", type := "clearnet", status := "offline", height := 0 },
        { url := "e", type := "clearnet", status := "online", height := 80 } ] }

/-- A one-node scan record whose single online node has a short address. -/
def c7rec : ScanRecord :=
  { timestamp := "2025-01-01T00:00:00",
    nodes := [ { url := "http://nodealpha.example", type := "clearnet",
                 status := "online", height := 100 } ] }

/-! ### Helper lemmas -/

/-- The strategy chain only ever returns the `"online"` or `"offline"`
status. -/
theorem probe_with_status (net : NetBehaviour) (node : NodeDescriptor) :
    (probe_with net node).status = "online" ∨ (probe_with net node).status = "offline" := by
  unfold probe_with
  cases runHeight net (height_methods (rstripSlash node.url)) with
  | some i => exact Or.inl rfl
  | none =>
    cases runBasic net (basic_methods (rstripSlash node.url)) with
    | some code => exact Or.inl rfl
    | none => exact Or.inr rfl

/-- If the first `k` strategies fail and the `k`-th succeeds, the
`height_methods` loop returns the `k`-th outcome. -/
theorem runHeight_first (net : NetBehaviour) :
    ∀ (ms : List RpcMethod) (k : Nat) (hk : k < ms.length) (i : HeightInfo),
      (∀ j (hj : j < k), postOutcome net (ms.get ⟨j, lt_trans hj hk⟩) = none) →
      postOutcome net (ms.get ⟨k, hk⟩) = some i →
      runHeight net ms = some i := by
  intro ms
  induction ms with
  | nil => intro k hk; exact absurd hk (Nat.not_lt_zero k)
  | cons m rest ih =>
    intro k hk i hprev hk_succ
    cases k with
    | zero =>
      simp only [List.get] at hk_succ
      simp [runHeight, hk_succ]
    | succ k =>
      have hm : postOutcome net m = none := hprev 0 (Nat.succ_pos k)
      simp only [runHeight, hm]
      exact ih k (Nat.lt_of_succ_lt_succ hk) i
        (fun j hj => hprev (j + 1) (Nat.succ_lt_succ hj))
        hk_succ

/-- If every strategy fails, the `height_methods` loop yields nothing. -/
theorem runHeight_none (net : NetBehaviour) :
    ∀ ms : List RpcMethod, (∀ m ∈ ms, postOutcome net m = none) →
      runHeight net ms = none := by
  intro ms
  induction ms with
  | nil => intro _; rfl
  | cons m rest ih =>
    intro h
    have hm : postOutcome net m = none := h m (List.mem_cons_self m rest)
    simp only [runHeight, hm]
    exact ih (fun x hx => h x (List.mem_cons_of_mem m hx))

/-- A GET attempt that fails for control-flow purposes: an exception, or a
status code of 500 and above. -/
def getFails (o : Except Unit HttpResponse) : Bool :=
  match o with
  | Except.error _ => true
  | Except.ok resp => decide (500 ≤ resp.status_code)

/-- If every GET fails, the `basic_methods` loop yields nothing. -/
theorem runBasic_none (net : NetBehaviour) :
    ∀ us : List String, (∀ u ∈ us, getFails (net.get u) = true) →
      runBasic net us = none := by
  intro us
  induction us with
  | nil => intro _; rfl
  | cons u rest ih =>
    intro h
    have hu : getFails (net.get u) = true := h u (List.mem_cons_self u rest)
    have hrest : runBasic net rest = none :=
      ih (fun x hx => h x (List.mem_cons_of_mem u hx))
    unfold runBasic
    cases ho : net.get u with
    | error e => exact hrest
    | ok resp =>
      rw [ho] at hu
      simp only [getFails, decide_eq_true_eq] at hu
      simp [Nat.not_lt_of_le hu, hrest]

/-! ### Claim theorems -/

/-- C10: whatever the node and the network behaviour, `check_node` only
ever produces the statuses `"online"` and `"offline"` — never `"timeout"`
or `"error"` — so the `error` counter computed by `run_scan` is always 0. -/
theorem C10_status_taxonomy :
    (∀ (node : NodeDescriptor) (u : Bool) (world : World),
      (check_node node u world).status = "online" ∨
      (check_node node u world).status = "offline")
    ∧ ∀ (nodes : List NodeDescriptor) (u : Bool) (world : NodeDescriptor → World),
        error_count (scan_nodes nodes u world) = 0 := by
  constructor
  · intro node u world
    exact probe_with_status (world (session_for node u)) node
  · intro nodes u world
    rw [error_count, List.countP_eq_zero]
    intro r hr
    rw [scan_nodes, List.mem_map] at hr
    obtain ⟨n, _, hn⟩ := hr
    rcases probe_with_status (world n (session_for n u)) n with h | h <;>
      · rw [← hn]
        simp [check_node, h]

/-- C3: appending a scan record to the persisted history never leaves more
than 10 retained records, and appending to a full history of 10 drops
exactly the oldest record, keeping records 2..11 in order. -/
theorem C3_history_bound :
    ∀ (scans : List ScanRecord) (r : ScanRecord),
      (append_scan scans r).length ≤ 10 ∧
      (scans.length = 10 → append_scan scans r = scans.drop 1 ++ [r]) := by
  intro scans r
  constructor
  · unfold append_scan
    by_cases h : (scans ++ [r]).length > 10
    · simp only [h, if_pos]
      rw [List.length_drop]
      omega
    · simp only [h, if_neg, not_false_iff]
      omega
  · intro h10
    have hlen : (scans ++ [r]).length = 11 := by simp [h10]
    unfold append_scan
    simp only [hlen]
    norm_num
    cases scans with
    | nil => simp at h10
    | cons a as => simp

/-- C3 witness: a full history of ten records plus an eleventh retains
records 2..11 in order. -/
theorem C3_history_bound_witness :
    append_scan hist10 rec11 = hist10.drop 1 ++ [rec11] :=
  (C3_history_bound hist10 rec11).2 (by decide)

/-- C9: a darknet-classified node probed with Tor routing disabled is still
probed: the direct client is selected and the full strategy chain runs
against it. -/
theorem C9_no_tor_still_probed :
    ∀ (node : NodeDescriptor) (world : World),
      node.type = "darknet" →
      session_for node false = Session.direct ∧
      check_node node false world = probe_with (world Session.direct) node := by
  intro node world _
  have hs : session_for node false = Session.direct := by
    simp [session_for]
  exact ⟨hs, by rw [check_node, hs]⟩

/-- C9 witness: a concrete `.onion` node with `use_tor = false` is probed
through the direct client. -/
theorem C9_no_tor_still_probed_witness :
    session_for onionNode false = Session.direct ∧
    check_node onionNode false failWorld = probe_with (failWorld Session.direct) onionNode :=
  C9_no_tor_still_probed onionNode failWorld (by decide)

/-- C2 counterexample: a node that fails all three RPC strategies but
answers a plain GET with HTTP 200 yields a result with status `"online"`,
height 0 and neither a version nor a difficulty field — refuting the
claimed equivalence `status = offline ⟺ height = 0 ∧ no version/difficulty`. -/
theorem C2_counterexample :
    (check_node exNode true getOnlyWorld).status ≠ "offline" ∧
    (check_node exNode true getOnlyWorld).height = 0 ∧
    (check_node exNode true getOnlyWorld).version = none ∧
    (check_node exNode true getOnlyWorld).difficulty = none := by
  decide

/-- C2 amended: in every probe result, status `"offline"` implies height 0
and the absence of both the version and the difficulty fields (the converse
fails, see the counterexample). -/
theorem C2_offline_fields :
    ∀ (node : NodeDescriptor) (u : Bool) (world : World),
      (check_node node u world).status = "offline" →
      (check_node node u world).height = 0 ∧
      (check_node node u world).version = none ∧
      (check_node node u world).difficulty = none := by
  intro node u world h
  rw [check_node] at h ⊢
  revert h
  unfold probe_with
  cases runHeight (world (session_for node u)) (height_methods (rstripSlash node.url)) with
  | some i => intro h; simp at h
  | none =>
    cases runBasic (world (session_for node u)) (basic_methods (rstripSlash node.url)) with
    | some code => intro h; simp at h
    | none => intro _; exact ⟨rfl, rfl, rfl⟩

/-- C2 witness: a node failing every strategy is offline with height 0 and
no version or difficulty fields. -/
theorem C2_offline_fields_witness :
    (check_node exNode true failWorld).height = 0 ∧
    (check_node exNode true failWorld).version = none ∧
    (check_node exNode true failWorld).difficulty = none :=
  C2_offline_fields exNode true failWorld (by decide)

/-- C1: the three height-seeking strategies are tried in the fixed
`height_methods` order; the first one whose response is HTTP 200 with a
parseable body carrying a `result` and a height (from `result.height`, else
`result.block_header.height`) determines the result — status `"online"`,
that height, and the version and difficulty fields — regardless of what any
later strategy would have answered. -/
theorem C1_first_strategy_wins :
    ∀ (node : NodeDescriptor) (u : Bool) (world : World) (k : Nat)
      (hk : k < (height_methods (rstripSlash node.url)).length) (i : HeightInfo),
      (∀ j (hj : j < k),
        postOutcome (world (session_for node u))
          ((height_methods (rstripSlash node.url)).get ⟨j, lt_trans hj hk⟩) = none) →
      postOutcome (world (session_for node u))
        ((height_methods (rstripSlash node.url)).get ⟨k, hk⟩) = some i →
      check_node node u world =
        { url := node.url, type := node.type, status := "online",
          height := i.height, version := some i.version,
          difficulty := some i.difficulty } := by
  intro node u world k hk i hprev hhit
  have hrun : runHeight (world (session_for node u)) (height_methods (rstripSlash node.url)) = some i :=
    runHeight_first (world (session_for node u)) (height_methods (rstripSlash node.url)) k hk i hprev hhit
  rw [check_node]
  unfold probe_with
  rw [hrun]

/-- C1 witness: the spec scenario — the very first strategy answers
HTTP 200 with `{"result":{"height":500,"version":"0.18"}}` and the probe
returns online at height 500 with version `"0.18"` (and the defaulted
difficulty 0). -/
theorem C1_first_strategy_wins_witness :
    check_node exNode false infoWorld =
      { url := "http://node.example", type := "clearnet", status := "online",
        height := 500, version := some "0.18", difficulty := some 0 } :=
  C1_first_strategy_wins exNode false infoWorld 0 (by decide) ⟨500, "0.18", 0⟩
    (fun j hj => absurd hj (Nat.not_lt_zero j)) (by decide)

/-- C5: when all three height strategies fail, the prober falls back to the
two plain GETs in order — the bare address, then `<address>/get_info`; the
first GET response with a status code below 500 yields status `"online"`,
height 0 and a note recording that code, and when all five strategies fail
the result is status `"offline"`, height 0 and the error note
`"Failed all connection methods"`. -/
theorem C5_fallback_and_exhaustion :
    ∀ (node : NodeDescriptor) (u : Bool) (world : World),
      ((∀ m ∈ height_methods (rstripSlash node.url),
          postOutcome (world (session_for node u)) m = none) →
        ∀ resp : HttpResponse,
          (world (session_for node u)).get (rstripSlash node.url) = Except.ok resp →
          resp.status_code < 500 →
          check_node node u world =
            { url := node.url, type := node.type, status := "online",
              note := some ("Responded with status " ++ toString resp.status_code),
              height := 0 })
      ∧ ((∀ m ∈ height_methods (rstripSlash node.url),
            postOutcome (world (session_for node u)) m = none) →
          getFails ((world (session_for node u)).get (rstripSlash node.url)) = true →
          ∀ resp : HttpResponse,
            (world (session_for node u)).get (rstripSlash node.url ++ "/get_info") = Except.ok resp →
            resp.status_code < 500 →
            check_node node u world =
              { url := node.url, type := node.type, status := "online",
                note := some ("Responded with status " ++ toString resp.status_code),
                height := 0 })
      ∧ ((∀ m ∈ height_methods (rstripSlash node.url),
            postOutcome (world (session_for node u)) m = none) →
          (∀ g ∈ basic_methods (rstripSlash node.url),
            getFails ((world (session_for node u)).get g) = true) →
          check_node node u world =
            { url := node.url, type := node.type, status := "offline",
              error := some "Failed all connection methods", height := 0 }) := by
  intro node u world
  refine ⟨?_, ?_, ?_⟩
  · intro hpost resp hget hcode
    have hrun := runHeight_none (world (session_for node u)) (height_methods (rstripSlash node.url)) hpost
    rw [check_node]
    unfold probe_with
    rw [hrun]
    unfold basic_methods runBasic
    rw [hget]
    simp [hcode]
  · intro hpost hfail1 resp hget hcode
    have hrun := runHeight_none (world (session_for node u)) (height_methods (rstripSlash node.url)) hpost
    rw [check_node]
    unfold probe_with
    rw [hrun]
    unfold basic_methods runBasic
    cases h1 : (world (session_for node u)).get (rstripSlash node.url) with
    | error e =>
      unfold runBasic
      rw [hget]
      simp [hcode]
    | ok resp1 =>
      rw [h1] at hfail1
      simp only [getFails, decide_eq_true_eq] at hfail1
      have : ¬ resp1.status_code < 500 := Nat.not_lt_of_le hfail1
      simp only [this, if_neg, not_false_iff]
      unfold runBasic
      rw [hget]
      simp [hcode]
  · intro hpost hfail
    have hrun := runHeight_none (world (session_for node u)) (height_methods (rstripSlash node.url)) hpost
    have hbasic := runBasic_none (world (session_for node u)) (basic_methods (rstripSlash node.url)) hfail
    rw [check_node]
    unfold probe_with
    rw [hrun, hbasic]

/-- C5 witness: the three fallback branches at concrete worlds — a bare GET
answering 200, a 503 on the bare address followed by a 200 on
`/get_info`, and total unreachability yielding the offline result. -/
theorem C5_fallback_and_exhaustion_witness :
    (check_node exNode true getOnlyWorld =
      { url := "http://node.example", type := "clearnet", status := "online",
        note := some "Responded with status 200", height := 0 })
    ∧ (check_node exNode true get503World =
      { url := "http://node.example", type := "clearnet", status := "online",
        note := some "Responded with status 200", height := 0 })
    ∧ (check_node exNode true failWorld =
      { url := "http://node.example", type := "clearnet", status := "offline",
        error := some "Failed all connection methods", height := 0 }) :=
  ⟨(C5_fallback_and_exhaustion exNode true getOnlyWorld).1 (by decide)
      { status_code := 200 } rfl (by decide),
   (C5_fallback_and_exhaustion exNode true get503World).2.1 (by decide) (by decide)
      { status_code := 200 } rfl (by decide),
   (C5_fallback_and_exhaustion exNode true failWorld).2.2 (by decide) (by decide)⟩

/-- C4: the prober is a total function of the node and the network
behaviour — every exception the network raises is a value of the oracle —
and the scan probes every node in input order: the result list has one
entry per node, the `i`-th being exactly the probe of the `i`-th node, so
no failure of one node affects the probe of any other node. -/
theorem C4_scan_isolation :
    ∀ (nodes : List NodeDescriptor) (u : Bool) (world : NodeDescriptor → World)
      (i : Nat) (h : i < nodes.length) (h2 : i < (scan_nodes nodes u world).length),
      (scan_nodes nodes u world).length = nodes.length ∧
      (scan_nodes nodes u world).get ⟨i, h2⟩ =
        check_node (nodes.get ⟨i, h⟩) u (world (nodes.get ⟨i, h⟩)) := by
  intro nodes u world i h h2
  constructor
  · rw [scan_nodes, List.length_map]
  · simp [scan_nodes, List.get_eq_getElem, List.getElem_map]

/-- C4 witness: in a two-node scan where the network of the first node raises on
every request, the second node is still probed and the order is kept. -/
theorem C4_scan_isolation_witness :
    (scan_nodes [exNode, onionNode] true mixedWorld).length = [exNode, onionNode].length ∧
    (scan_nodes [exNode, onionNode] true mixedWorld).get ⟨1, by decide⟩ =
      check_node onionNode true (mixedWorld onionNode) :=
  C4_scan_isolation [exNode, onionNode] true mixedWorld 1 (by decide) (by decide)

/-- C8 counterexample: with the SOCKS port configured to 9051 the produced
Tor session still routes through port 9050 — the session the words of the spec
describe (one using the configured port) differs from the produced one, so
the port is not configurable. -/
theorem C8_counterexample :
    session_for_config 9051 ≠ get_tor_session_spec 9051 ∧
    (session_for_config 9051).http = "socks5h://127.0.0.1:9050" ∧
    (session_for_config 9051).https = "socks5h://127.0.0.1:9050" := by
  decide

/-- C8 amended: the classifier marks a URL restricted exactly when its
parsed netloc ends with `.onion` or `.i2p`; a restricted node with Tor
enabled gets the Tor-proxied client and a clearnet node the direct client;
but the SOCKS endpoint of the Tor client is fixed at `127.0.0.1:9050` for both
schemes, regardless of the configured SOCKS port. -/
theorem C8_classifier_and_fixed_proxy :
    (∀ url : String,
      is_darknet_url url =
        (strEndsWith (netlocOf url) ".onion" || strEndsWith (netlocOf url) ".i2p"))
    ∧ is_darknet_url "http://example.onion" = true
    ∧ is_darknet_url "http://foo.i2p/path" = true
    ∧ is_darknet_url "http://example.com" = false
    ∧ (∀ url : String, ∀ u : Bool,
        session_for { url := url, type := "clearnet" } u = Session.direct)
    ∧ (∀ url : String, session_for { url := url, type := "darknet" } true = Session.tor)
    ∧ (∀ socks_port : Nat, session_for_config socks_port = get_tor_session)
    ∧ get_tor_session.http = "socks5h://127.0.0.1:9050"
    ∧ get_tor_session.https = "socks5h://127.0.0.1:9050" := by
  refine ⟨fun url => rfl, by decide, by decide, by decide, ?_, ?_, fun p => rfl, rfl, rfl⟩
  · intro url u
    simp [session_for]
  · intro url
    simp [session_for]

/-- C6: the derived `median_height` is the standard median of the
heights of online nodes with positive height, and `health_score` is
`100 × (0.5 × online_ratio + 0.5 × synced/online_with_height)`, 0 when no
online node has a height; on the worked example of the spec (heights 100, 100,
90, 80 online and one offline node) the statistics are max 100, median 95,
synced 3, online ratio 4/5, health score 77.5. -/
theorem C6_formatter_statistics :
    (∀ r : ScanRecord, median_height r = medianSpec r ∧ health_score r = healthSpec r)
    ∧ max_height exRecord = 100
    ∧ median_height exRecord = 95
    ∧ synced_nodes exRecord = 3
    ∧ onlineFraction exRecord = 4 / 5
    ∧ health_score exRecord = 155 / 2 := by
  have hsort : sortAsc (heights exRecord) = [80, 90, 100, 100] := by decide
  have howh4 : (online_with_height exRecord).length = 4 := by decide
  have honline : online_nodes exRecord = 4 := by decide
  have htotal : total_nodes exRecord = 5 := by decide
  have hsync : synced_nodes exRecord = 3 := by decide
  have hguard : online_with_height exRecord ≠ [] := by decide
  refine ⟨fun r => ⟨?_, ?_⟩, by decide, ?_, by decide, ?_, ?_⟩
  · simp only [median_height, medianSpec]
    by_cases h0 : (sortAsc (heights r)).length = 0
    · simp [h0]
    · by_cases he : (sortAsc (heights r)).length % 2 = 0
      · simp [h0, he]
      · have hidx : ((sortAsc (heights r)).length - 1) / 2 = (sortAsc (heights r)).length / 2 := by
          omega
        simp [h0, he, hidx]
  · simp only [health_score, healthSpec, onlineFraction]
    by_cases howh : online_with_height r = []
    · have htot : ¬ (0 < total_nodes r ∧ online_with_height r ≠ []) := by
        intro hc
        exact hc.2 howh
      simp [howh, htot]
    · have htot : 0 < total_nodes r := by
        rw [total_nodes, List.length_pos]
        intro hnil
        apply howh
        rw [online_with_height, hnil]
        rfl
      rw [if_pos ⟨htot, howh⟩, if_neg howh]
      ring
  · simp only [median_height, hsort]
    norm_num
  · rw [onlineFraction, honline, htotal]
    norm_num
  · rw [health_score, if_pos ⟨by rw [htotal]; norm_num, hguard⟩, honline, htotal, hsync, howh4]
    norm_num

/-! ### URL-invariance lemmas for the formatter -/

/-- Counting is unaffected by address replacement when the predicate
ignores the address. -/
theorem countP_map_setUrl (f : String → String) (p : ProbeResult → Bool)
    (hp : ∀ n, p (setUrl f n) = p n) :
    ∀ ns : List ProbeResult, (ns.map (setUrl f)).countP p = ns.countP p := by
  intro ns
  induction ns with
  | nil => rfl
  | cons n rest ih => simp [List.countP_cons, hp, ih]

/-- Filtering commutes with address replacement when the predicate ignores
the address. -/
theorem filter_map_setUrl (f : String → String) (p : ProbeResult → Bool)
    (hp : ∀ n, p (setUrl f n) = p n) :
    ∀ ns : List ProbeResult, (ns.map (setUrl f)).filter p = (ns.filter p).map (setUrl f) := by
  intro ns
  induction ns with
  | nil => rfl
  | cons n rest ih =>
    by_cases h : p n = true
    · simp [List.filter_cons, hp, h, ih]
    · simp [List.filter_cons, hp, h, ih]

theorem total_nodes_mapUrls (f : String → String) (r : ScanRecord) :
    total_nodes (mapUrls f r) = total_nodes r := by
  simp [total_nodes, mapUrls]

theorem online_nodes_mapUrls (f : String → String) (r : ScanRecord) :
    online_nodes (mapUrls f r) = online_nodes r :=
  countP_map_setUrl f (fun n => n.status == "online") (fun n => rfl) r.nodes

theorem clearnet_online_mapUrls (f : String → String) (r : ScanRecord) :
    clearnet_online (mapUrls f r) = clearnet_online r :=
  countP_map_setUrl f (fun n => n.type == "clearnet" && n.status == "online")
    (fun n => rfl) r.nodes

theorem darknet_online_mapUrls (f : String → String) (r : ScanRecord) :
    darknet_online (mapUrls f r) = darknet_online r :=
  countP_map_setUrl f (fun n => n.type == "darknet" && n.status == "online")
    (fun n => rfl) r.nodes

theorem owh_mapUrls (f : String → String) (r : ScanRecord) :
    online_with_height (mapUrls f r) = (online_with_height r).map (setUrl f) :=
  filter_map_setUrl f (fun n => n.status == "online" && decide (0 < n.height))
    (fun n => rfl) r.nodes

theorem owh_length_mapUrls (f : String → String) (r : ScanRecord) :
    (online_with_height (mapUrls f r)).length = (online_with_height r).length := by
  rw [owh_mapUrls, List.length_map]

theorem heights_mapUrls (f : String → String) (r : ScanRecord) :
    heights (mapUrls f r) = heights r := by
  rw [heights, heights, owh_mapUrls, List.map_map]
  rfl

theorem max_height_mapUrls (f : String → String) (r : ScanRecord) :
    max_height (mapUrls f r) = max_height r := by
  rw [max_height, max_height, heights_mapUrls]

theorem synced_nodes_mapUrls (f : String → String) (r : ScanRecord) :
    synced_nodes (mapUrls f r) = synced_nodes r := by
  rw [synced_nodes, synced_nodes, heights_mapUrls, max_height_mapUrls]

theorem synced_percent_mapUrls (f : String → String) (r : ScanRecord) :
    synced_percent (mapUrls f r) = synced_percent r := by
  simp only [synced_percent, owh_mapUrls, List.map_eq_nil_iff, List.length_map,
    synced_nodes_mapUrls]

theorem health_score_mapUrls (f : String → String) (r : ScanRecord) :
    health_score (mapUrls f r) = health_score r := by
  simp only [health_score, total_nodes_mapUrls, online_nodes_mapUrls,
    synced_nodes_mapUrls, owh_mapUrls, List.map_eq_nil_iff, List.length_map]
  have hiff : (List.map (setUrl f) (online_with_height r) ≠ []) ↔
      (online_with_height r ≠ []) := by simp
  exact if_congr (and_congr_right fun _ => hiff) rfl rfl

theorem onlineFraction_mapUrls (f : String → String) (r : ScanRecord) :
    onlineFraction (mapUrls f r) = onlineFraction r := by
  rw [onlineFraction, onlineFraction, online_nodes_mapUrls, total_nodes_mapUrls]

/-- C7 counterexample: a scan with a single online node whose 24-character
address would, by the claim, be listed verbatim (it is short enough to
escape elision) — yet the formatted message does not contain the address
anywhere: `format_scan_results` emits no node listing at all. -/
theorem C7_counterexample :
    online_nodes c7rec = 1 ∧
    elide_address "http://nodealpha.example" = "http://nodealpha.example" ∧
    listContains ("http://nodealpha.example".toList)
      ((format_scan_results c7rec none).toList) = false := by
  refine ⟨by decide, by decide, ?_⟩
  have hfl : Int.floor ((100 : ℚ) * 10 + 1 / 2) = 1000 := by
    rw [Int.floor_eq_iff] <;> norm_num
  have hfmt : fmt1 (100 : ℚ) = "100.0" := by
    simp only [fmt1, hfl]
    decide
  have hor : onlineFraction c7rec * 100 = 100 := by
    have h1 : online_nodes c7rec = 1 := by decide
    have h2 : total_nodes c7rec = 1 := by decide
    rw [onlineFraction, h1, h2]
    norm_num
  have hsp : synced_percent c7rec = 100 := by
    have h1 : synced_nodes c7rec = 1 := by decide
    have h2 : (online_with_height c7rec).length = 1 := by decide
    rw [synced_percent, if_neg (by decide), h1, h2]
    norm_num
  have hhs : health_score c7rec = 100 := by
    have h1 : online_nodes c7rec = 1 := by decide
    have h2 : total_nodes c7rec = 1 := by decide
    have h3 : synced_nodes c7rec = 1 := by decide
    have h4 : (online_with_height c7rec).length = 1 := by decide
    rw [health_score, if_pos ⟨by decide, by decide⟩, h1, h2, h3, h4]
    norm_num
  simp only [format_scan_results]
  rw [hor, hsp, hhs, hfmt]
  decide

/-- C7 amended: the formatted summary message carries only aggregate
statistics and lists no individual nodes — it is unchanged under arbitrary
replacement of every node address, so in particular no top-5 listing and no
address elision occurs. -/
theorem C7_no_node_listing :
    ∀ (f : String → String) (r : ScanRecord) (st : Option ℚ),
      format_scan_results (mapUrls f r) st = format_scan_results r st := by
  intro f r st
  rw [format_scan_results, format_scan_results, total_nodes_mapUrls,
    online_nodes_mapUrls, clearnet_online_mapUrls, darknet_online_mapUrls,
    max_height_mapUrls, synced_nodes_mapUrls, owh_length_mapUrls,
    synced_percent_mapUrls, health_score_mapUrls, onlineFraction_mapUrls]
  rfl

end MoneroTracker
